import Mathlib

/-!
Verification of the Mostro trading-skill client (TypeScript sources).

Shallow embedding conventions:
* JavaScript numbers are modelled as `ℚ` (or `ℤ`/`ℕ` where the source only
  ever holds integers, e.g. Unix timestamps from `Math.floor(Date.now()/1000)`).
* External cryptographic libraries (nostr-tools NIP-44, @noble schnorr/sha256,
  @noble/curves secp256k1) are modelled symbolically: encryption is a pair of
  (conversation key, plaintext) with decryption succeeding exactly when the
  conversation keys agree, signatures are (digest, key) pairs, and the curve
  group is an arbitrary additive commutative group.
* File-system state (`trade-state.json`) is modelled as an optional association
  list of JSON values; `none` models a missing or unparseable file.
-/

namespace Mostro

/- ===================== lib/protocol.ts : data model ===================== -/

/-- SmallOrder (lib/protocol.ts). JS numbers are `ℚ`. -/
structure SmallOrder where
  id : Option String := none
  kind : Option String := none
  status : Option String := none
  amount : ℚ
  fiat_code : String
  min_amount : Option ℚ := none
  max_amount : Option ℚ := none
  fiat_amount : ℚ
  payment_method : String
  premium : ℚ
  buyer_trade_pubkey : Option String := none
  seller_trade_pubkey : Option String := none
  buyer_invoice : Option String := none
  created_at : Option ℤ := none
  expires_at : Option ℤ := none
deriving DecidableEq

/-- Peer reputation record (lib/protocol.ts). -/
structure Reputation where
  total_reviews : ℚ
  total_rating : ℚ
  last_rating : ℚ
  max_rate : ℚ
  min_rate : ℚ
deriving DecidableEq

/-- Peer (lib/protocol.ts). -/
structure Peer where
  pubkey : String
  reputation : Option Reputation := none
deriving DecidableEq

/-- PaymentFailedInfo (lib/protocol.ts). -/
structure PaymentFailedInfo where
  payment_attempts : ℚ
  payment_retries_interval : ℚ
deriving DecidableEq

/-- One restored order entry (lib/protocol.ts RestoreData.orders). -/
structure RestoredOrder where
  id : String
  trade_index : ℚ
  status : String
deriving DecidableEq

/-- One restored dispute entry (lib/protocol.ts RestoreData.disputes). -/
structure RestoredDispute where
  dispute_id : String
  order_id : String
  trade_index : ℚ
  status : String
deriving DecidableEq

/-- RestoreData (lib/protocol.ts). -/
structure RestoreData where
  orders : List RestoredOrder
  disputes : List RestoredDispute
deriving DecidableEq

/-- Payload: the tagged variant of recognised payload shapes (lib/protocol.ts).
The `payment_request` variant is the tuple `[SmallOrder | null, string, number | null]`.
`cant_do` reasons are opaque to this client and modelled as an optional string. -/
inductive Payload where
  | order (o : SmallOrder)
  | payment_request (o : Option SmallOrder) (invoice : String) (amount : Option ℚ)
  | text_message (s : String)
  | peer (p : Peer)
  | rating_user (n : ℚ)
  | amount (n : ℚ)
  | dispute (d : String)
  | cant_do (reason : Option String)
  | next_trade (pubkey : String) (index : ℚ)
  | payment_failed (info : PaymentFailedInfo)
  | restore_data (d : RestoreData)
  | ids (l : List String)
  | orders (l : List SmallOrder)
deriving DecidableEq

/-- MessageKind (lib/protocol.ts). `action` is a string at runtime. -/
structure MessageKind where
  version : ℚ
  id : Option String := none
  request_id : Option ℤ := none
  trade_index : Option ℚ := none
  action : String
  payload : Option Payload := none
deriving DecidableEq

/-- Top-level Message wrapper: tagged variant over the category
(order / dispute / cant_do / rate / dm / restore) (lib/protocol.ts). -/
inductive Message where
  | order (k : MessageKind)
  | dispute (k : MessageKind)
  | cant_do (k : MessageKind)
  | rate (k : MessageKind)
  | dm (k : MessageKind)
  | restore (k : MessageKind)
deriving DecidableEq

/-- getInnerMessageKind (lib/protocol.ts). The source also has a log-and-skip
arm for unknown categories, which is unreachable in this typed model. -/
def getInnerMessageKind : Message → MessageKind
  | .order k => k
  | .dispute k => k
  | .cant_do k => k
  | .rate k => k
  | .dm k => k
  | .restore k => k

/- ===================== symbolic crypto primitives ===================== -/

/-- Private keys (32-byte scalars) are modelled as naturals. -/
abbrev PrivKey := ℕ

/-- X-only public keys, symbolically wrapping the private scalar
(the derivation `getPublicKey` of nostr-tools is injective). -/
structure PubKey where
  x : ℕ
deriving DecidableEq

/-- getPublicKey (nostr-tools), symbolic. -/
def getPublicKey (k : PrivKey) : PubKey := ⟨k⟩

/-- The SHA-256 digest of the canonical JSON serialization of a Message
(`sha256(new TextEncoder().encode(JSON.stringify(message)))` in lib/nostr.ts),
modelled as an injective constructor. -/
structure Digest where
  msg : Message
deriving DecidableEq

/-- sha256 of the canonical JSON serialization, symbolic. -/
def sha256Canonical (m : Message) : Digest := ⟨m⟩

/-- A Schnorr signature, symbolically the signed digest with the signing key. -/
structure SchnorrSig where
  digest : Digest
  key : PrivKey
deriving DecidableEq

/-- schnorr.sign (@noble/curves), symbolic. -/
def schnorrSign (d : Digest) (k : PrivKey) : SchnorrSig := ⟨d, k⟩

/-- schnorr.verify (@noble/curves), symbolic: the signature verifies for a
digest and x-only public key iff it was produced over that digest by the
matching private key. -/
def schnorrVerify (s : SchnorrSig) (d : Digest) (p : PubKey) : Bool :=
  decide (s.digest = d ∧ getPublicKey s.key = p)

/-- NIP-44 conversation key: symmetric KDF over the ECDH shared secret of
`(my_private, their_public)`; modelled as the unordered pair of scalars, which
makes `getConversationKey a (pub b) = getConversationKey b (pub a)` hold. -/
abbrev ConvKey := ℕ × ℕ

/-- nip44.v2.utils.getConversationKey, symbolic. -/
def getConversationKey (priv : PrivKey) (pub : PubKey) : ConvKey :=
  (min priv pub.x, max priv pub.x)

/- ===================== lib/nostr.ts : NIP-59 gift wrap ===================== -/

/-- The rumor: unsigned kind-1 event whose content is the serialized
`[message, signature]` pair (lib/nostr.ts). JSON round-tripping of the rumor
content is modelled by storing the structured pair directly. -/
structure Rumor where
  kind : ℕ
  created_at : ℤ
  tags : List (String × PubKey)
  content : Message × Option SchnorrSig
  pubkey : PubKey
deriving DecidableEq

/-- Plaintexts that flow through NIP-44 encryption in the gift-wrap pipeline:
either a serialized rumor or a serialized signed seal (kind 13). The seal's
own fields are inlined; its `content` is the NIP-44 ciphertext of the rumor,
modelled as conversation key (`contentKey`) plus plaintext (`contentPlain`). -/
inductive Plaintext where
  | rumorEvt (r : Rumor)
  | sealEvt (kind : ℕ) (created_at : ℤ) (contentKey : ConvKey)
      (contentPlain : Plaintext) (pubkey : PubKey) (sig : PrivKey)
deriving DecidableEq

/-- NIP-44 ciphertext, symbolic: conversation key together with plaintext. -/
abbrev Ciphertext := ConvKey × Plaintext

/-- nip44Encrypt (lib/nostr.ts): encrypt under the conversation key of
(senderPrivkey, receiverPubkey). -/
def nip44Encrypt (senderPrivkey : PrivKey) (receiverPubkey : PubKey)
    (content : Plaintext) : Ciphertext :=
  (getConversationKey senderPrivkey receiverPubkey, content)

/-- nip44Decrypt (lib/nostr.ts): decryption succeeds exactly when the
conversation key of (receiverPrivkey, senderPubkey) matches the one the
ciphertext was produced under; a mismatch is the thrown/caught failure. -/
def nip44Decrypt (receiverPrivkey : PrivKey) (senderPubkey : PubKey)
    (c : Ciphertext) : Option Plaintext :=
  if c.1 = getConversationKey receiverPrivkey senderPubkey then some c.2 else none

/-- The outer gift-wrap event (kind 1059), signed by the ephemeral key. -/
structure GiftWrapEvent where
  kind : ℕ
  created_at : ℤ
  tags : List (String × PubKey)
  content : Ciphertext
  pubkey : PubKey
  sig : PrivKey
deriving DecidableEq

/-- sendGiftWrap (lib/nostr.ts, lines 189-269), up to relay publication.
The `signature` argument mirrors the source parameter, which the body never
uses: the inner signature is always recomputed from the trade key. The
random ephemeral key and the three timestamps (`now`, and the two tweaked
timestamps for seal and wrap) are passed explicitly. -/
def sendGiftWrap (mostroPublicKey : PubKey) (message : Message)
    (signature : Option SchnorrSig) (tradeKeyPrivate : PrivKey)
    (identityKeyPrivate : Option PrivKey) (ephemeralKey : PrivKey)
    (nowTs sealTs wrapTs : ℤ) : GiftWrapEvent :=
  let _ := signature
  let tradePublicKey := getPublicKey tradeKeyPrivate
  let sealKey := identityKeyPrivate.getD tradeKeyPrivate
  let sealPublicKey := match identityKeyPrivate with
    | some i => getPublicKey i
    | none => tradePublicKey
  let computedSignature := schnorrSign (sha256Canonical message) tradeKeyPrivate
  let rumor : Rumor :=
    { kind := 1, created_at := nowTs, tags := [],
      content := (message, some computedSignature), pubkey := tradePublicKey }
  let encryptedRumor := nip44Encrypt sealKey mostroPublicKey (.rumorEvt rumor)
  let signedSeal : Plaintext :=
    .sealEvt 13 sealTs encryptedRumor.1 encryptedRumor.2 sealPublicKey sealKey
  let encryptedSeal := nip44Encrypt ephemeralKey mostroPublicKey signedSeal
  { kind := 1059, created_at := wrapTs, tags := [("p", mostroPublicKey)],
    content := encryptedSeal, pubkey := getPublicKey ephemeralKey,
    sig := ephemeralKey }

/-- sendGiftWrap of the updated client (src/unnamed/part_006, lines 147-195),
which delegates to the nostr-tools nip59 helpers: the rumor content is
`[message, signature]` built from the caller-supplied `signature` argument
(line 159) — this copy computes no signature of its own — the rumor carries a
p-tag for the recipient, and `createSeal` always signs the seal with the
trade key. The ephemeral key and the timestamps chosen inside the nip59
helpers are passed explicitly. -/
def sendGiftWrapNip59 (mostroPublicKey : PubKey) (message : Message)
    (signature : Option SchnorrSig) (tradeKeyPrivate : PrivKey)
    (ephemeralKey : PrivKey) (nowTs sealTs wrapTs : ℤ) : GiftWrapEvent :=
  let tradePublicKey := getPublicKey tradeKeyPrivate
  let rumor : Rumor :=
    { kind := 1, created_at := nowTs, tags := [("p", mostroPublicKey)],
      content := (message, signature), pubkey := tradePublicKey }
  let encryptedRumor := nip44Encrypt tradeKeyPrivate mostroPublicKey (.rumorEvt rumor)
  let signedSeal : Plaintext :=
    .sealEvt 13 sealTs encryptedRumor.1 encryptedRumor.2 tradePublicKey tradeKeyPrivate
  let encryptedSeal := nip44Encrypt ephemeralKey mostroPublicKey signedSeal
  { kind := 1059, created_at := wrapTs, tags := [("p", mostroPublicKey)],
    content := encryptedSeal, pubkey := getPublicKey ephemeralKey,
    sig := ephemeralKey }

/-- One fetched-and-decrypted gift-wrap entry:
`{ message, signature, timestamp }` (lib/nostr.ts fetchGiftWraps). -/
structure GiftWrapResponse where
  message : Message
  signature : Option SchnorrSig
  timestamp : ℤ
deriving DecidableEq

/-- The per-event body of the fetchGiftWraps loop (lib/nostr.ts, lines
299-328): decrypt wrap to seal, decrypt seal to rumor, parse the rumor
content as `[message, signature]`; any failure skips the event (`none`).
The fetchGiftWraps loop of the updated client (src/unnamed/part_006, lines
231-247) has the same structure: its `nip59.unwrapEvent` performs the same
two decryptions before the identical `[message, signature]` parse. -/
def unwrapGiftWrap (recipientPrivkey : PrivKey) (event : GiftWrapEvent) :
    Option GiftWrapResponse :=
  match nip44Decrypt recipientPrivkey event.pubkey event.content with
  | none => none
  | some sealPlain =>
    match sealPlain with
    | .sealEvt _ _ sealContentKey sealContentPlain sealPubkey _ =>
      match nip44Decrypt recipientPrivkey sealPubkey (sealContentKey, sealContentPlain) with
      | none => none
      | some rumorPlain =>
        match rumorPlain with
        | .rumorEvt rumor =>
          some { message := rumor.content.1, signature := rumor.content.2,
                 timestamp := rumor.created_at }
        | _ => none
    | _ => none

/- ============== fetch window (fetchGiftWraps, two copies) ============== -/

/-- The effective query window of fetchGiftWraps in the updated client
(src/unnamed/part_006, lines 213-215): the requested window with a 3-day
minimum floor. -/
def fetchGiftWrapsWindow (sinceMinutes : ℕ) : ℕ :=
  max (sinceMinutes * 60) (3 * 24 * 60 * 60)

/-- The `since` filter value of the updated fetchGiftWraps
(src/unnamed/part_006, line 216). -/
def fetchGiftWrapsSince (now : ℤ) (sinceMinutes : ℕ) : ℤ :=
  now - fetchGiftWrapsWindow sinceMinutes

/-- The `since` filter value of fetchGiftWraps in src/lib/nostr.ts (line 284):
`now - sinceMinutes * 60`, with no floor. -/
def fetchGiftWrapsSinceLib (now : ℤ) (sinceMinutes : ℕ) : ℤ :=
  now - sinceMinutes * 60

/- ===================== tweaked timestamps ===================== -/

/-- getTweakedTimestamp (lib/nostr.ts lines 144-149, and identically in the
p2p-chat module): `now - Math.floor(Math.random() * twoDays) - 60`, with the
random source `rnd ∈ [0, 1)` passed explicitly. -/
def getTweakedTimestamp (now : ℤ) (rnd : ℚ) : ℤ :=
  now - ⌊rnd * ((2 : ℚ) * 24 * 60 * 60)⌋ - 60

/- ===================== response correlation ===================== -/

/-- filterResponsesByRequestId (lib/protocol.ts, lines 266-276): keep exactly
the responses whose inner `request_id` strict-equals the given request id;
no fallback. -/
def filterResponsesByRequestId (responses : List GiftWrapResponse)
    (requestId : ℤ) : List GiftWrapResponse :=
  responses.filter fun resp =>
    decide ((getInnerMessageKind resp.message).request_id = some requestId)

/-- Descending insertion of one response by timestamp, modelling the JS
comparator `(a, b) => b.timestamp - a.timestamp`. -/
def insertDesc (x : GiftWrapResponse) : List GiftWrapResponse → List GiftWrapResponse
  | [] => [x]
  | y :: ys => if y.timestamp < x.timestamp then x :: y :: ys else y :: insertDesc x ys

/-- Sort responses by timestamp, most recent first (models Array.sort with the
descending comparator in scripts/trade-status.ts). -/
def sortByTimestampDesc : List GiftWrapResponse → List GiftWrapResponse
  | [] => []
  | x :: xs => insertDesc x (sortByTimestampDesc xs)

/-- The response-selection logic of scripts/trade-status.ts `--all` (lines
77-94): filter by request id; when nothing matches, fall back to the most
recent `restore-session` response, warning (the returned Boolean) exactly when
that response is older than 30 seconds. -/
def tradeStatusAllSelect (responses : List GiftWrapResponse) (requestId : ℤ)
    (nowSec : ℤ) : List GiftWrapResponse × Bool :=
  let filtered := filterResponsesByRequestId responses requestId
  if filtered.isEmpty then
    let restoreResponses := sortByTimestampDesc
      (responses.filter fun r =>
        decide ((getInnerMessageKind r.message).action = "restore-session"))
    match restoreResponses with
    | [] => ([], false)
    | r :: _ => ([r], decide (30 < nowSec - r.timestamp))
  else (filtered, false)

/-- The response-selection logic of scripts/trade-status.ts `--order-id`
(lines 143-154): filter by request id; when nothing matches, fall back to the
most recent response whose action is "orders" or whose id matches the order,
with no staleness warning of any kind (the Boolean is always false). -/
def tradeStatusOrderIdSelect (responses : List GiftWrapResponse) (requestId : ℤ)
    (orderId : String) : List GiftWrapResponse × Bool :=
  let filtered := filterResponsesByRequestId responses requestId
  if filtered.isEmpty then
    let orderResponses := sortByTimestampDesc
      (responses.filter fun r =>
        let k := getInnerMessageKind r.message
        decide (k.action = "orders" ∨ k.id = some orderId))
    match orderResponses with
    | [] => ([], false)
    | r :: _ => ([r], false)
  else (filtered, false)

/- ===================== scripts/take-order.ts ===================== -/

/-- JS truthiness of an optional number (`amount ? … : …`): false for
`undefined` and for `0`. -/
def truthyNum : Option ℚ → Bool
  | some a => decide (a ≠ 0)
  | none => false

/-- JS truthiness of an optional string (`if (invoice)`): false for
`undefined` and for the empty string. -/
def truthyStr : Option String → Bool
  | some s => decide (s ≠ "")
  | none => false

/-- buildTakePayload (scripts/take-order.ts, lines 51-71). `action` is the
string "take-sell" or "take-buy"; any non-"take-buy" action falls through to
the take-sell logic, as in the source. -/
def buildTakePayload (action : String) (invoice : Option String)
    (amount : Option ℚ) : Option Payload :=
  if action = "take-buy" then
    if truthyNum amount then some (.amount (amount.getD 0)) else none
  else
    if truthyStr invoice then
      some (.payment_request none (invoice.getD "") amount)
    else
      if truthyNum amount then some (.amount (amount.getD 0)) else none

/- ===================== lib/safety.ts (src/unnamed/part_005) ===================== -/

/-- TradeLimits (lib/config.ts), sats-based fields of the updated module. -/
structure TradeLimits where
  max_trade_amount_sats : ℚ
  max_daily_volume_sats : ℚ
  max_trades_per_day : ℚ
  cooldown_seconds : ℚ
  require_confirmation : Bool
deriving DecidableEq

/-- TradeState as read from trade-state.json by the safety module:
per-date maps of volume and count, plus the last trade time (modelled
directly as its epoch-milliseconds value). -/
structure TradeState where
  daily_volume : List (String × ℚ)
  daily_trades : List (String × ℚ)
  last_trade_at : Option ℚ
deriving DecidableEq

/-- Object-property read with `?? 0` (e.g. `state.daily_volume[today] ?? 0`). -/
def lookupOrZero (l : List (String × ℚ)) (k : String) : ℚ :=
  (l.lookup k).getD 0

/-- Why checkLimits rejected, mirroring the four reason strings of the
source in order. -/
inductive RejectReason where
  | amountExceedsMax
  | dailyVolumeExceeded
  | dailyCountReached
  | cooldownActive
deriving DecidableEq

/-- LimitCheckResult (lib/safety.ts). -/
structure LimitCheckResult where
  allowed : Bool
  reason : Option RejectReason
deriving DecidableEq

/-- checkLimits (src/unnamed/part_005, lines 87-134). The loaded state, the
current date key and the current time (epoch ms) are passed explicitly;
`elapsed` is `(Date.now() - lastTradeTime) / 1000` in exact arithmetic. -/
def checkLimits (limits : TradeLimits) (satsAmount : ℚ) (state : TradeState)
    (today : String) (nowMs : ℚ) : LimitCheckResult :=
  if limits.max_trade_amount_sats < satsAmount then
    ⟨false, some .amountExceedsMax⟩
  else
    let todayVolume := lookupOrZero state.daily_volume today
    if limits.max_daily_volume_sats < todayVolume + satsAmount then
      ⟨false, some .dailyVolumeExceeded⟩
    else
      let todayTrades := lookupOrZero state.daily_trades today
      if limits.max_trades_per_day ≤ todayTrades then
        ⟨false, some .dailyCountReached⟩
      else
        match state.last_trade_at with
        | some lastTradeTime =>
          if 0 < limits.cooldown_seconds then
            let elapsed := (nowMs - lastTradeTime) / 1000
            if elapsed < limits.cooldown_seconds then
              ⟨false, some .cooldownActive⟩
            else ⟨true, none⟩
          else ⟨true, none⟩
        | none => ⟨true, none⟩

/-- Why validateOrderPrice set a reason, mirroring the source's strings. -/
inductive PriceReason where
  | oracleUnavailable
  | premiumExceedsMax
  | deviationExceedsMax
deriving DecidableEq

/-- The result record of validateOrderPrice. -/
structure PriceValidation where
  valid : Bool
  marketPrice : Option ℚ
  orderPrice : Option ℚ
  deviationPercent : Option ℚ
  reason : Option PriceReason
deriving DecidableEq

/-- The order fields consumed by validateOrderPrice. -/
structure OrderPriceInput where
  fiat_amount : ℚ
  amount : ℚ
  fiat_code : String
  premium : Option ℚ
deriving DecidableEq

/-- Math.round(x * 100) / 100, with JS round-half-toward-positive-infinity. -/
def roundTwoDecimals (x : ℚ) : ℚ := (⌊x * 100 + 1 / 2⌋ : ℚ) / 100

/-- validateOrderPrice (src/unnamed/part_005, lines 195-255). The oracle
result (`fetchBtcPrice`, an external HTTP call) is passed as `marketPrice`. -/
def validateOrderPrice (order : OrderPriceInput) (maxPremiumDeviation : ℚ)
    (marketPrice : Option ℚ) : PriceValidation :=
  match marketPrice with
  | none =>
    { valid := true, marketPrice := none, orderPrice := none,
      deviationPercent := none, reason := some .oracleUnavailable }
  | some market =>
    match order.premium with
    | some deviation =>
      let valid := decide (|deviation| ≤ maxPremiumDeviation)
      { valid := valid, marketPrice := some market, orderPrice := none,
        deviationPercent := some deviation,
        reason := if valid then none else some .premiumExceedsMax }
    | none =>
      if 0 < order.amount ∧ 0 < order.fiat_amount then
        let orderPrice := order.fiat_amount / (order.amount / 100000000)
        let deviationPercent := (orderPrice - market) / market * 100
        let valid := decide (|deviationPercent| ≤ maxPremiumDeviation)
        { valid := valid, marketPrice := some market,
          orderPrice := some orderPrice,
          deviationPercent := some (roundTwoDecimals deviationPercent),
          reason := if valid then none else some .deviationExceedsMax }
      else
        { valid := true, marketPrice := some market, orderPrice := none,
          deviationPercent := none, reason := none }

/- ===================== lib/keys.ts (src/unnamed/part_008) ===================== -/

/-- A small JSON value model for the contents of trade-state.json. -/
inductive Jval where
  | num (n : ℚ)
  | str (s : String)
  | bool (b : Bool)
  | null
  | obj (fields : List (String × Jval))
  | arr (elems : List Jval)

/-- A derived key pair, as returned by `keys.getTradeKeys(index)`. -/
structure KeyPair where
  privateKey : PrivKey
  publicKey : PubKey
deriving DecidableEq

/-- TradeKeyState (lib/keys.ts): the persisted trade-index cursor. -/
structure TradeKeyState where
  next_trade_index : ℚ
deriving DecidableEq

/-- JS object update `\x7b...existing, k: v\x7d`: replace the value of `k` in
place if present, append it otherwise (parsed JSON objects have unique keys). -/
def setKey : List (String × Jval) → String → Jval → List (String × Jval)
  | [], k, v => [(k, v)]
  | (k', v') :: rest, k, v =>
    if k' = k then (k, v) :: rest else (k', v') :: setKey rest k v

/-- loadTradeKeyState (lib/keys.ts, lines 305-313): a missing or unparseable
file (`none`) and a missing or non-numeric `next_trade_index` field default
the cursor to 1. -/
def loadTradeKeyState (file : Option (List (String × Jval))) : TradeKeyState :=
  match file with
  | none => ⟨1⟩
  | some data =>
    match data.lookup "next_trade_index" with
    | some (.num n) => ⟨n⟩
    | _ => ⟨1⟩

/-- saveTradeKeyState (lib/keys.ts, lines 315-327): merge the cursor into the
existing file contents (`\x7b...existing, next_trade_index\x7d`) and write the
result; an unreadable existing file contributes the empty object. -/
def saveTradeKeyState (file : Option (List (String × Jval)))
    (state : TradeKeyState) : List (String × Jval) :=
  let existing := file.getD []
  setKey existing "next_trade_index" (.num state.next_trade_index)

/-- getNextTradeKeys (lib/keys.ts, lines 332-339): return the key pair at the
current cursor and persist the incremented cursor. `getTradeKeys` (NIP-06
derivation from the seed, via @scure/bip32) is passed as a function. The
result is ((key pair, index used), written file contents). -/
def getNextTradeKeys (getTradeKeys : ℚ → KeyPair)
    (file : Option (List (String × Jval))) :
    (KeyPair × ℚ) × List (String × Jval) :=
  let state := loadTradeKeyState file
  let index := state.next_trade_index
  let tradeKeys := getTradeKeys index
  ((tradeKeys, index), saveTradeKeyState file ⟨index + 1⟩)

/-- setTradeIndex (lib/keys.ts, lines 351-353): persist a given cursor value
through the same merging write. -/
def setTradeIndex (file : Option (List (String × Jval))) (index : ℚ) :
    List (String × Jval) :=
  saveTradeKeyState file ⟨index⟩

/-- The trade-key selection of scripts/create-order.ts line 124:
`keys.getTradeKeys(1)` — a fixed index, never consulting the cursor. -/
def createOrderTradeKeys (getTradeKeys : ℚ → KeyPair) : KeyPair :=
  getTradeKeys 1

/-- The trade-key selection of scripts/take-order.ts line 87:
`keys.getTradeKeys(1)` — a fixed index, never consulting the cursor. -/
def takeOrderTradeKeys (getTradeKeys : ℚ → KeyPair) : KeyPair :=
  getTradeKeys 1

/-- A concrete injective key-derivation function used to evaluate the
key-selection code on explicit inputs. -/
def demoTradeKeys : ℚ → KeyPair :=
  fun i => ⟨i.num.toNat, getPublicKey i.num.toNat⟩

/- ===================== lib/p2p-chat.ts : ECDH shared key ===================== -/

/-- SharedKeyPair (lib/p2p-chat.ts): the raw shared secret used as a private
key, with its derived public key. -/
structure SharedKeyPair where
  privateKey : ℕ
  publicKey : PubKey
deriving DecidableEq

/-- computeSharedKey (lib/p2p-chat.ts, lines 47-70), modelled over the curve
group: `secp256k1.getSharedSecret(ourPriv, peerPoint)` is scalar
multiplication, and taking bytes 1-33 of the compressed result is the
x-coordinate map `xCoord`. The hex decoding of the peer key — prepending
"02", i.e. lifting the x-only key to the even-y point, which may be the
negation of the peer's actual public point — is accounted for in the
theorems by quantifying over both lifts. The derived `publicKey` is
`getPublicKey(privateKey)`. -/
def computeSharedKey {Point : Type} [AddCommGroup Point] (xCoord : Point → ℕ)
    (ourPrivateKey : ℕ) (peerPoint : Point) : SharedKeyPair :=
  let privateKey := xCoord (ourPrivateKey • peerPoint)
  ⟨privateKey, getPublicKey privateKey⟩

/-- A concrete instantiation of the curve-group interface on `ZMod 5`
(generator 1): the x-coordinate map identifies a point with its negation. -/
def xcZ5 : ZMod 5 → ℕ := fun P => min P.val (-P).val

/- ===================== theorems ===================== -/

/-- Claim C6, amended theorem: the updated fetchGiftWraps
(src/unnamed/part_006) queries with since = now − max(sinceMinutes·60, 3 days),
so its effective window is never below the 3-day floor. -/
theorem fetchGiftWraps_window_floor (sinceMinutes : ℕ) (now : ℤ) :
    fetchGiftWrapsSince now sinceMinutes =
      now - max (sinceMinutes * 60) (3 * 24 * 60 * 60) ∧
    3 * 24 * 60 * 60 ≤ fetchGiftWrapsWindow sinceMinutes :=
  ⟨rfl, Nat.le_max_right _ _⟩

/-- Claim C6, counterexample: the duplicate fetchGiftWraps in src/lib/nostr.ts
queries with since = now − sinceMinutes·60 and, at the caller-requested window
of 60 minutes, its effective window is 3600 s — smaller than 3 days — so the
claim that the query window is never below the 3-day floor is false for it. -/
theorem fetchGiftWrapsLib_no_floor :
    fetchGiftWrapsSinceLib 1000000 60 = 1000000 - 3600 ∧
    (1000000 : ℤ) - fetchGiftWrapsSinceLib 1000000 60 < 3 * 24 * 60 * 60 ∧
    fetchGiftWrapsSinceLib 1000000 60 ≠ fetchGiftWrapsSince 1000000 60 := by
  refine ⟨rfl, by decide, by decide⟩

/-- Claim C7, amended theorem: for any invocation time and any value of the
random source in [0, 1), the tweaked timestamp lies in the half-open interval
(now − 2 days − 60, now − 60]: strictly above the lower bound but possibly
equal to now − 60 (when the random offset floors to 0). -/
theorem getTweakedTimestamp_range (now : ℤ) (rnd : ℚ) (h0 : 0 ≤ rnd)
    (h1 : rnd < 1) :
    now - 2 * 24 * 60 * 60 - 60 < getTweakedTimestamp now rnd ∧
    getTweakedTimestamp now rnd ≤ now - 60 := by
  unfold getTweakedTimestamp
  have hnn : (0 : ℤ) ≤ ⌊rnd * ((2 : ℚ) * 24 * 60 * 60)⌋ :=
    Int.floor_nonneg.2 (mul_nonneg h0 (by norm_num))
  have hlt : ⌊rnd * ((2 : ℚ) * 24 * 60 * 60)⌋ < 172800 := by
    apply Int.floor_lt.2
    have := mul_lt_mul_of_pos_right h1 (show (0 : ℚ) < 2 * 24 * 60 * 60 by norm_num)
    rw [one_mul] at this
    calc rnd * ((2 : ℚ) * 24 * 60 * 60) < 2 * 24 * 60 * 60 := this
    _ ≤ ((172800 : ℤ) : ℚ) := by norm_num
  omega

/-- Claim C7, witness: the range theorem applied at now = 1000000, rnd = 1/2. -/
theorem getTweakedTimestamp_range_witness :
    ((0 : ℚ) ≤ 1 / 2 ∧ (1 / 2 : ℚ) < 1) ∧
    (1000000 - 2 * 24 * 60 * 60 - 60 < getTweakedTimestamp 1000000 (1 / 2) ∧
     getTweakedTimestamp 1000000 (1 / 2) ≤ 1000000 - 60) :=
  ⟨⟨by norm_num, by norm_num⟩,
   getTweakedTimestamp_range 1000000 (1 / 2) (by norm_num) (by norm_num)⟩

/-- Claim C7, counterexample: when the random source is 0 the tweaked
timestamp equals now − 60 exactly, which does not lie strictly within the
open interval (now − 2 days − 60, now − 60) asserted by the claim. -/
theorem getTweakedTimestamp_hits_upper_bound :
    getTweakedTimestamp 1000000 0 = 1000000 - 60 ∧
    ¬(1000000 - 2 * 24 * 60 * 60 - 60 < getTweakedTimestamp 1000000 0 ∧
      getTweakedTimestamp 1000000 0 < 1000000 - 60) := by
  have h : getTweakedTimestamp 1000000 0 = 1000000 - 60 := by
    unfold getTweakedTimestamp
    rw [zero_mul, Int.floor_zero]
    decide
  refine ⟨h, ?_⟩
  rw [h]
  omega

/-- Claim C8: buildTakePayload produces payment_request [null, invoice,
amount-or-null] for take-sell with an invoice, amount-only for take-sell
without an invoice but with a chosen nonzero amount, nothing for take-sell
with neither, and for take-buy an amount payload exactly when a nonzero
amount was picked. -/
theorem buildTakePayload_spec :
    (∀ (s : String) (amt : Option ℚ), s ≠ "" →
      buildTakePayload "take-sell" (some s) amt =
        some (.payment_request none s amt)) ∧
    (∀ a : ℚ, a ≠ 0 →
      buildTakePayload "take-sell" none (some a) = some (.amount a)) ∧
    buildTakePayload "take-sell" none none = none ∧
    (∀ (inv : Option String) (a : ℚ), a ≠ 0 →
      buildTakePayload "take-buy" inv (some a) = some (.amount a)) ∧
    (∀ inv : Option String, buildTakePayload "take-buy" inv none = none) := by
  have hne : ("take-sell" : String) ≠ "take-buy" := by decide
  refine ⟨?_, ?_, ?_, ?_, ?_⟩
  · intro s amt hs
    simp [buildTakePayload, truthyStr, hne, hs]
  · intro a ha
    simp [buildTakePayload, truthyStr, truthyNum, hne, ha]
  · simp [buildTakePayload, truthyStr, truthyNum, hne]
  · intro inv a ha
    simp [buildTakePayload, truthyNum, ha]
  · intro inv
    simp [buildTakePayload, truthyNum]

/-- Claim C8, witness: the payload builder evaluated on the spec's concrete
scenario (invoice "lnbc1", amount 15). -/
theorem buildTakePayload_spec_witness :
    (("lnbc1" : String) ≠ "" ∧ (15 : ℚ) ≠ 0) ∧
    buildTakePayload "take-sell" (some "lnbc1") (some 15) =
      some (.payment_request none "lnbc1" (some 15)) ∧
    buildTakePayload "take-sell" none (some 15) = some (.amount 15) ∧
    buildTakePayload "take-sell" none none = none ∧
    buildTakePayload "take-buy" none (some 15) = some (.amount 15) ∧
    buildTakePayload "take-buy" (some "lnbc1") none = none :=
  ⟨⟨by decide, by norm_num⟩,
   buildTakePayload_spec.1 "lnbc1" (some 15) (by decide),
   buildTakePayload_spec.2.1 15 (by norm_num),
   buildTakePayload_spec.2.2.1,
   buildTakePayload_spec.2.2.2.1 none 15 (by norm_num),
   buildTakePayload_spec.2.2.2.2 (some "lnbc1")⟩

/-- Claim C3 (code bug): scripts/create-order.ts line 124 and
scripts/take-order.ts line 87 select the trade key with the fixed call
`keys.getTradeKeys(1)` (marked "TODO: proper trade index tracking"), so with
the persisted cursor at 5 both scripts use the index-1 key pair and leave the
cursor untouched, while `getNextTradeKeys` — which the claim and the spec
require for new trades — would hand out index 5. -/
theorem createOrder_takeOrder_fixed_trade_index :
    createOrderTradeKeys demoTradeKeys = demoTradeKeys 1 ∧
    takeOrderTradeKeys demoTradeKeys = demoTradeKeys 1 ∧
    ((getNextTradeKeys demoTradeKeys
        (some [("next_trade_index", Jval.num 5)])).1).2 = 5 ∧
    demoTradeKeys 1 ≠ demoTradeKeys 5 := by
  refine ⟨rfl, rfl, by decide, by decide⟩

/-- Looking up a key other than the one being set is unaffected by `setKey`. -/
theorem lookup_setKey_ne (l : List (String × Jval)) (key k : String) (v : Jval)
    (h : k ≠ key) : (setKey l key v).lookup k = l.lookup k := by
  induction l with
  | nil => simp [setKey, List.lookup, beq_eq_false_iff_ne.2 h]
  | cons hd tl ih =>
    obtain ⟨k', v'⟩ := hd
    by_cases hk : k' = key
    · subst hk
      simp [setKey, List.lookup, beq_eq_false_iff_ne.2 h]
    · simp [setKey, hk, List.lookup, ih]

/-- Claim C10: both writers of trade-state.json in lib/keys.ts
(getNextTradeKeys and setTradeIndex) go through saveTradeKeyState, which
merges into the existing file contents, so every field other than
next_trade_index (daily_volume, daily_trades, last_trade_at, …) reads back
unchanged. -/
theorem tradeState_frame (getTradeKeys : ℚ → KeyPair)
    (file : Option (List (String × Jval))) (n : ℚ) (k : String)
    (h : k ≠ "next_trade_index") :
    ((getNextTradeKeys getTradeKeys file).2).lookup k = (file.getD []).lookup k ∧
    (setTradeIndex file n).lookup k = (file.getD []).lookup k := by
  unfold getNextTradeKeys setTradeIndex saveTradeKeyState
  exact ⟨lookup_setKey_ne _ _ _ _ h, lookup_setKey_ne _ _ _ _ h⟩

/-- Claim C10, witness: the frame theorem applied to a concrete state file
holding a daily_volume object written by the safety module. -/
theorem tradeState_frame_witness :
    ("daily_volume" ≠ "next_trade_index") ∧
    (((getNextTradeKeys demoTradeKeys
        (some [("daily_volume", Jval.obj [("2026-10-11", Jval.num 120)]),
               ("next_trade_index", Jval.num 3)])).2).lookup "daily_volume" =
      ((some [("daily_volume", Jval.obj [("2026-10-11", Jval.num 120)]),
              ("next_trade_index", Jval.num 3)] :
          Option (List (String × Jval))).getD []).lookup "daily_volume" ∧
     (setTradeIndex
        (some [("daily_volume", Jval.obj [("2026-10-11", Jval.num 120)]),
               ("next_trade_index", Jval.num 3)]) 7).lookup "daily_volume" =
      ((some [("daily_volume", Jval.obj [("2026-10-11", Jval.num 120)]),
              ("next_trade_index", Jval.num 3)] :
          Option (List (String × Jval))).getD []).lookup "daily_volume") :=
  ⟨by decide,
   tradeState_frame demoTradeKeys
     (some [("daily_volume", Jval.obj [("2026-10-11", Jval.num 120)]),
            ("next_trade_index", Jval.num 3)]) 7 "daily_volume" (by decide)⟩

/-- Claim C4: checkLimits rejects exactly when the amount exceeds the single
trade cap, or the day's volume plus the amount exceeds the daily cap, or the
day's trade count has reached the per-day cap, or the time elapsed since the
recorded last trade is below the cooldown — assuming the recorded last-trade
time is not in the future of the current time. -/
theorem checkLimits_reject_iff (limits : TradeLimits) (satsAmount : ℚ)
    (state : TradeState) (today : String) (nowMs : ℚ)
    (hclock : ∀ t, state.last_trade_at = some t → t ≤ nowMs) :
    (checkLimits limits satsAmount state today nowMs).allowed = false ↔
      (limits.max_trade_amount_sats < satsAmount ∨
       limits.max_daily_volume_sats <
         lookupOrZero state.daily_volume today + satsAmount ∨
       limits.max_trades_per_day ≤ lookupOrZero state.daily_trades today ∨
       (∃ t, state.last_trade_at = some t ∧
         (nowMs - t) / 1000 < limits.cooldown_seconds)) := by
  by_cases h1 : limits.max_trade_amount_sats < satsAmount
  · simp [checkLimits, h1]
  by_cases h2 : limits.max_daily_volume_sats <
      lookupOrZero state.daily_volume today + satsAmount
  · simp [checkLimits, h1, h2]
  by_cases h3 : limits.max_trades_per_day ≤ lookupOrZero state.daily_trades today
  · simp [checkLimits, h1, h2, h3]
  cases hlast : state.last_trade_at with
  | none => simp [checkLimits, h1, h2, h3, hlast]
  | some t =>
    have ht : t ≤ nowMs := hclock t hlast
    have helnn : 0 ≤ (nowMs - t) / 1000 := by
      apply div_nonneg (by linarith) (by norm_num)
    by_cases hcd : 0 < limits.cooldown_seconds
    · by_cases hel : (nowMs - t) / 1000 < limits.cooldown_seconds
      · simp [checkLimits, h1, h2, h3, hlast, hcd, hel]
      · simp [checkLimits, h1, h2, h3, hlast, hcd, hel]
    · have hnone : ¬(nowMs - t) / 1000 < limits.cooldown_seconds := by
        intro hc
        exact hcd (lt_of_le_of_lt helnn hc)
      simp [checkLimits, h1, h2, h3, hlast, hcd, hnone]

/-- Claim C4, witness: the reject-iff theorem applied at a concrete over-cap
trade (60000 sats against a 50000-sat cap), concluding rejection. -/
theorem checkLimits_reject_iff_witness :
    (∀ t : ℚ, (some (0 : ℚ) : Option ℚ) = some t → t ≤ 1000000000) ∧
    (checkLimits ⟨50000, 500000, 10, 300, true⟩ 60000
      ⟨[("2026-10-11", 1000)], [("2026-10-11", 2)], some 0⟩
      "2026-10-11" 1000000000).allowed = false := by
  have hclock : ∀ t : ℚ, (some (0 : ℚ) : Option ℚ) = some t → t ≤ 1000000000 := by
    intro t ht
    rw [Option.some_inj] at ht
    rw [← ht]
    norm_num
  refine ⟨hclock, ?_⟩
  exact (checkLimits_reject_iff ⟨50000, 500000, 10, 300, true⟩ 60000
      ⟨[("2026-10-11", 1000)], [("2026-10-11", 2)], some 0⟩
      "2026-10-11" 1000000000 hclock).mpr (Or.inl (by norm_num))

/-- Claim C5: validateOrderPrice passes whenever the oracle price is
unavailable; with a market price and a declared premium it is valid iff
|premium| ≤ max_premium_deviation; with no declared premium and positive
amounts it is valid iff the effective-price deviation percentage is within
max_premium_deviation in absolute value; in every remaining case it passes. -/
theorem validateOrderPrice_spec :
    (∀ (order : OrderPriceInput) (maxDev : ℚ),
      (validateOrderPrice order maxDev none).valid = true) ∧
    (∀ (order : OrderPriceInput) (maxDev market p : ℚ), order.premium = some p →
      ((validateOrderPrice order maxDev (some market)).valid = true ↔
        |p| ≤ maxDev)) ∧
    (∀ (order : OrderPriceInput) (maxDev market : ℚ), order.premium = none →
      0 < order.amount → 0 < order.fiat_amount →
      ((validateOrderPrice order maxDev (some market)).valid = true ↔
        |(order.fiat_amount / (order.amount / 100000000) - market) / market * 100|
          ≤ maxDev)) ∧
    (∀ (order : OrderPriceInput) (maxDev market : ℚ), order.premium = none →
      ¬(0 < order.amount ∧ 0 < order.fiat_amount) →
      (validateOrderPrice order maxDev (some market)).valid = true) := by
  refine ⟨?_, ?_, ?_, ?_⟩
  · intro order maxDev
    simp [validateOrderPrice]
  · intro order maxDev market p hp
    simp [validateOrderPrice, hp]
  · intro order maxDev market hp ha hf
    simp [validateOrderPrice, hp, ha, hf]
  · intro order maxDev market hp hnot
    simp [validateOrderPrice, hp, hnot]

/-- Claim C5, witness: the four cases evaluated at concrete orders — oracle
down, declared premium 3% against a 5% cap, a calculated price of 50000 with
market 50000 (0% deviation), and a degenerate order with no amounts. -/
theorem validateOrderPrice_spec_witness :
    ((⟨500, 0, "USD", some 3⟩ : OrderPriceInput).premium = some 3 ∧
     (⟨500, 1000000, "USD", none⟩ : OrderPriceInput).premium = none ∧
     (0 : ℚ) < 1000000 ∧ (0 : ℚ) < 500 ∧
     ¬((0 : ℚ) < 0 ∧ (0 : ℚ) < 0)) ∧
    (validateOrderPrice ⟨500, 0, "USD", some 3⟩ 5 none).valid = true ∧
    ((validateOrderPrice ⟨500, 0, "USD", some 3⟩ 5 (some 50000)).valid = true ↔
      |(3 : ℚ)| ≤ 5) ∧
    ((validateOrderPrice ⟨500, 1000000, "USD", none⟩ 5 (some 50000)).valid = true ↔
      |((500 : ℚ) / ((1000000 : ℚ) / 100000000) - 50000) / 50000 * 100| ≤ 5) ∧
    (validateOrderPrice ⟨0, 0, "USD", none⟩ 5 (some 50000)).valid = true :=
  ⟨⟨rfl, rfl, by norm_num, by norm_num, by norm_num⟩,
   validateOrderPrice_spec.1 ⟨500, 0, "USD", some 3⟩ 5,
   validateOrderPrice_spec.2.1 ⟨500, 0, "USD", some 3⟩ 5 50000 3 rfl,
   validateOrderPrice_spec.2.2.1 ⟨500, 1000000, "USD", none⟩ 5 50000 rfl
     (by norm_num) (by norm_num),
   validateOrderPrice_spec.2.2.2 ⟨0, 0, "USD", none⟩ 5 50000 rfl (by norm_num)⟩

/-- The NIP-44 conversation key is symmetric in the two parties. -/
theorem getConversationKey_symm (a b : ℕ) :
    getConversationKey a (getPublicKey b) = getConversationKey b (getPublicKey a) := by
  simp [getConversationKey, getPublicKey, min_comm, max_comm]

/-- Decryption with the recipient key against the sender's public key inverts
encryption by the sender against the recipient's public key. -/
theorem nip44_decrypt_encrypt (r s : ℕ) (pt : Plaintext) :
    nip44Decrypt r (getPublicKey s) (nip44Encrypt s (getPublicKey r) pt) = some pt := by
  simp [nip44Decrypt, nip44Encrypt, getConversationKey_symm s r]

/-- Claim C1, amended theorem: for the src/lib/nostr.ts copy of sendGiftWrap
— the copy that always computes the inner signature itself — unwrapping (with
the recipient's private key r) the gift wrap built for recipient pub(r) from
message m and trade key T yields exactly the pair (m, inner_sig) — with the
rumor's timestamp — where inner_sig is the Schnorr signature over sha256 of
the canonical JSON serialization of m, and that signature verifies under
pub(T). This holds for both seal modes (identity key present or absent) and
for any ephemeral key and timestamps. -/
theorem sendGiftWrap_fetchGiftWraps_roundtrip (m : Message)
    (sig0 : Option SchnorrSig) (T : PrivKey) (idk : Option PrivKey)
    (e r : PrivKey) (nowTs sealTs wrapTs : ℤ) :
    unwrapGiftWrap r (sendGiftWrap (getPublicKey r) m sig0 T idk e nowTs sealTs wrapTs) =
      some ⟨m, some (schnorrSign (sha256Canonical m) T), nowTs⟩ ∧
    schnorrVerify (schnorrSign (sha256Canonical m) T) (sha256Canonical m)
      (getPublicKey T) = true := by
  constructor
  · cases idk with
    | none => simp [sendGiftWrap, unwrapGiftWrap, nip44_decrypt_encrypt]
    | some i => simp [sendGiftWrap, unwrapGiftWrap, nip44_decrypt_encrypt]
  · simp only [schnorrVerify, decide_eq_true_eq]
    exact ⟨rfl, rfl⟩

/-- Claim C1, counterexample: the sendGiftWrap copy in src/unnamed/part_006
(also cited by the claim) forwards the caller-supplied signature into the
rumor instead of computing one, and every call site in the repository passes
null. Unwrapping the wrap it builds from a concrete new-order message with
trade key 3, recipient key 5 and ephemeral key 7 yields (m, null): no inner
Schnorr signature — let alone one verifying under pub(T) — is returned, so
the claim as stated is false for this cited implementation. -/
theorem sendGiftWrapNip59_roundtrip_null_sig :
    unwrapGiftWrap 5
      (sendGiftWrapNip59 (getPublicKey 5)
        (Message.order ⟨1, none, none, none, "new-order", none⟩)
        none 3 7 100 90 80) =
      some ⟨Message.order ⟨1, none, none, none, "new-order", none⟩, none, 100⟩ ∧
    ¬ ∃ s : SchnorrSig,
        unwrapGiftWrap 5
          (sendGiftWrapNip59 (getPublicKey 5)
            (Message.order ⟨1, none, none, none, "new-order", none⟩)
            none 3 7 100 90 80) =
          some ⟨Message.order ⟨1, none, none, none, "new-order", none⟩,
                some s, 100⟩ ∧
        schnorrVerify s
          (sha256Canonical (Message.order ⟨1, none, none, none, "new-order", none⟩))
          (getPublicKey 3) = true := by
  have h : unwrapGiftWrap 5
      (sendGiftWrapNip59 (getPublicKey 5)
        (Message.order ⟨1, none, none, none, "new-order", none⟩)
        none 3 7 100 90 80) =
      some ⟨Message.order ⟨1, none, none, none, "new-order", none⟩, none, 100⟩ := by
    decide
  refine ⟨h, ?_⟩
  rintro ⟨s, hs, _⟩
  rw [h] at hs
  simp at hs

/-- Claim C9: the ECDH shared key pair computed by each party agrees — even
when decoding the peer's x-only key lifts to the negation of the peer's
actual public point — because the x-coordinate identifies a point with its
negation. `QA`/`QB` range over both possible lifts of the parties' public
points `a • G` and `b • G`. -/
theorem computeSharedKey_symm {Point : Type} [AddCommGroup Point]
    (xCoord : Point → ℕ) (hx : ∀ P : Point, xCoord (-P) = xCoord P)
    (G : Point) (a b : ℕ) (QA QB : Point)
    (hQA : QA = a • G ∨ QA = -(a • G)) (hQB : QB = b • G ∨ QB = -(b • G)) :
    computeSharedKey xCoord a QB = computeSharedKey xCoord b QA := by
  have key : ∀ (u v : ℕ) (Q : Point), (Q = v • G ∨ Q = -(v • G)) →
      xCoord (u • Q) = xCoord ((u * v) • G) := by
    rintro u v Q (rfl | rfl)
    · rw [smul_smul]
    · rw [smul_neg, hx, smul_smul]
  have hpriv : xCoord (a • QB) = xCoord (b • QA) := by
    rw [key a b QB hQB, key b a QA hQA, Nat.mul_comm]
  simp [computeSharedKey, hpriv]

/-- Claim C9, witness: the symmetry theorem instantiated on the concrete
group `ZMod 5` with generator 1, private scalars 2 and 3, one peer point
decoded to the true public point and the other to its negation. -/
theorem computeSharedKey_symm_witness :
    (∀ P : ZMod 5, xcZ5 (-P) = xcZ5 P) ∧
    computeSharedKey xcZ5 2 (-((3 : ℕ) • (1 : ZMod 5))) =
      computeSharedKey xcZ5 3 ((2 : ℕ) • (1 : ZMod 5)) :=
  ⟨by decide,
   computeSharedKey_symm xcZ5 (by decide) 1 2 3
     ((2 : ℕ) • (1 : ZMod 5)) (-((3 : ℕ) • (1 : ZMod 5)))
     (Or.inl rfl) (Or.inr rfl)⟩

/-- Inserting into the descending sort never yields the empty list. -/
theorem insertDesc_ne_nil (x : GiftWrapResponse) (l : List GiftWrapResponse) :
    insertDesc x l ≠ [] := by
  cases l with
  | nil => simp [insertDesc]
  | cons y ys =>
    unfold insertDesc
    split <;> simp

/-- The descending sort of a nonempty response list starts with an element of
the list whose timestamp is maximal. -/
theorem sortByTimestampDesc_head_max (l : List GiftWrapResponse) (hl : l ≠ []) :
    ∃ r rest, sortByTimestampDesc l = r :: rest ∧ r ∈ l ∧
      ∀ x ∈ l, x.timestamp ≤ r.timestamp := by
  induction l with
  | nil => exact absurd rfl hl
  | cons x xs ih =>
    by_cases hxs : xs = []
    · subst hxs
      refine ⟨x, [], rfl, List.mem_cons_self x [], ?_⟩
      intro y hy
      rcases List.mem_cons.1 hy with rfl | hy'
      · exact le_refl _
      · exact absurd hy' (List.not_mem_nil y)
    · obtain ⟨r, rest, hsort, hmem, hmax⟩ := ih hxs
      have hstep : sortByTimestampDesc (x :: xs) = insertDesc x (r :: rest) := by
        simp only [sortByTimestampDesc]
        rw [hsort]
      by_cases hlt : r.timestamp < x.timestamp
      · refine ⟨x, r :: rest, ?_, List.mem_cons_self x xs, ?_⟩
        · rw [hstep]
          simp [insertDesc, hlt]
        · intro y hy
          rcases List.mem_cons.1 hy with rfl | hy'
          · exact le_refl _
          · exact le_trans (hmax y hy') (le_of_lt hlt)
      · refine ⟨r, insertDesc x rest, ?_, List.mem_cons_of_mem x hmem, ?_⟩
        · rw [hstep]
          simp [insertDesc, hlt]
        · intro y hy
          rcases List.mem_cons.1 hy with rfl | hy'
          · exact not_lt.1 hlt
          · exact hmax y hy'

/-- Claim C2, amended theorem: (1) filterResponsesByRequestId returns exactly
the responses whose inner request_id equals the request id — it never falls
back; (2) in the trade-status --all flow, when nothing matches and
restore-session responses exist, the caller returns the single most recent
restore-session response and warns exactly when it is older than 30 seconds;
(3) the trade-status --order-id fallback never warns, whatever the age. -/
theorem responseCorrelation_spec :
    (∀ (responses : List GiftWrapResponse) (requestId : ℤ) (r : GiftWrapResponse),
      r ∈ filterResponsesByRequestId responses requestId ↔
        r ∈ responses ∧ (getInnerMessageKind r.message).request_id = some requestId) ∧
    (∀ (responses : List GiftWrapResponse) (requestId nowSec : ℤ),
      filterResponsesByRequestId responses requestId = [] →
      (responses.filter fun r =>
        decide ((getInnerMessageKind r.message).action = "restore-session")) ≠ [] →
      ∃ r, r ∈ responses ∧
        (getInnerMessageKind r.message).action = "restore-session" ∧
        (∀ x ∈ responses,
          (getInnerMessageKind x.message).action = "restore-session" →
          x.timestamp ≤ r.timestamp) ∧
        tradeStatusAllSelect responses requestId nowSec =
          ([r], decide (30 < nowSec - r.timestamp))) ∧
    (∀ (responses : List GiftWrapResponse) (requestId : ℤ) (orderId : String),
      (tradeStatusOrderIdSelect responses requestId orderId).2 = false) := by
  refine ⟨?_, ?_, ?_⟩
  · intro responses requestId r
    simp [filterResponsesByRequestId, List.mem_filter]
  · intro responses requestId nowSec hfilter hcand
    obtain ⟨r, rest, hsort, hmem, hmax⟩ :=
      sortByTimestampDesc_head_max _ hcand
    have hmem' := List.mem_filter.1 hmem
    refine ⟨r, hmem'.1, of_decide_eq_true hmem'.2, ?_, ?_⟩
    · intro x hx hax
      exact hmax x (List.mem_filter.2 ⟨hx, decide_eq_true hax⟩)
    · simp only [tradeStatusAllSelect]
      rw [hfilter, hsort]
      simp
  · intro responses requestId orderId
    simp only [tradeStatusOrderIdSelect]
    split
    · split <;> rfl
    · rfl

/-- Claim C2, witness: the amended theorem applied to a batch holding one
restore-session response with no request_id (so nothing matches request 42):
the --all flow returns it with the warning decided by its 150-second age. -/
theorem responseCorrelation_spec_witness :
    (filterResponsesByRequestId
      [⟨Message.restore ⟨1, none, none, none, "restore-session", none⟩, none, 50⟩]
      42 = [] ∧
     ([⟨Message.restore ⟨1, none, none, none, "restore-session", none⟩, none, 50⟩] :
        List GiftWrapResponse).filter (fun r =>
          decide ((getInnerMessageKind r.message).action = "restore-session")) ≠ []) ∧
    (∃ r, r ∈ ([⟨Message.restore ⟨1, none, none, none, "restore-session", none⟩, none, 50⟩] :
        List GiftWrapResponse) ∧
      (getInnerMessageKind r.message).action = "restore-session" ∧
      (∀ x ∈ ([⟨Message.restore ⟨1, none, none, none, "restore-session", none⟩, none, 50⟩] :
          List GiftWrapResponse),
        (getInnerMessageKind x.message).action = "restore-session" →
        x.timestamp ≤ r.timestamp) ∧
      tradeStatusAllSelect
        [⟨Message.restore ⟨1, none, none, none, "restore-session", none⟩, none, 50⟩]
        42 200 = ([r], decide (30 < (200 : ℤ) - r.timestamp))) :=
  ⟨⟨by decide, by decide⟩,
   responseCorrelation_spec.2.1
     [⟨Message.restore ⟨1, none, none, none, "restore-session", none⟩, none, 50⟩]
     42 200 (by decide) (by decide)⟩

/-- Claim C2, counterexample: a batch whose only response answers a different
request (request_id 7, queried id 42) and carries the "orders" action with
timestamp 0. The trade-status --order-id flow falls back to this response and
returns it with the warning flag false — even though at fetch time 1000 it is
1000 seconds old, far beyond the 30-second staleness threshold — refuting the
claim that the user is warned before a stale fallback is returned. -/
theorem tradeStatus_orderId_stale_fallback_unwarned :
    filterResponsesByRequestId
      [⟨Message.order ⟨1, some "oid", some 7, none, "orders", none⟩, none, 0⟩]
      42 = [] ∧
    tradeStatusOrderIdSelect
      [⟨Message.order ⟨1, some "oid", some 7, none, "orders", none⟩, none, 0⟩]
      42 "oid" =
      ([⟨Message.order ⟨1, some "oid", some 7, none, "orders", none⟩, none, 0⟩],
       false) ∧
    (30 : ℤ) < 1000 -
      (⟨Message.order ⟨1, some "oid", some 7, none, "orders", none⟩, none,
        (0 : ℤ)⟩ : GiftWrapResponse).timestamp := by
  refine ⟨by decide, by decide, by decide⟩

end Mostro
